import Mathlib

/-!
Verification development for the Server-Dashboard-Pro repository.

The definitions below are a shallow embedding of the JavaScript sources:

* `src/server.js` — the current server (WebSocket hub, sampling loop, HTTP
  handlers for stats, docker container actions, login).
* `src/unnamed/part_001` — an earlier revision of the server (its stats
  handler is embedded as `systemStatsHandlerLegacy` for comparison).
* `src/public/script.js` — the current browser client (reconciler,
  batch container actions).
* `src/unnamed/part_000` — an earlier revision of the client (its
  `batchContainerAction` is identical to the current one).

JavaScript numbers are modelled as `Option ℚ`: `none` stands for a
non-finite value (NaN or Infinity), `some q` for the finite value `q`.
Effects of external collaborators (systeminformation, dockerode, bcrypt,
the session store) are passed in as explicit parameters, so each handler
is a pure function of its request and of the collaborators' outcomes.
-/

/-! ## String preliminaries: the JavaScript String.includes check -/

/-- Check that the second character list starts with the first one. -/
def startsWithChars : List Char → List Char → Bool
  | [], _ => true
  | _ :: _, [] => false
  | a :: as, b :: bs => (a = b) && startsWithChars as bs

/-- Check that `needle` occurs as a contiguous run inside `hay`. -/
def containsChars (needle : List Char) : List Char → Bool
  | [] => startsWithChars needle []
  | a :: rest => startsWithChars needle (a :: rest) || containsChars needle rest

/-- Embedding of the JavaScript call `s.includes(sub)`. -/
def jsIncludes (s sub : String) : Bool :=
  containsChars sub.toList s.toList

/-! ## JavaScript arithmetic on possibly non-finite numbers -/

/-- JavaScript division. `none` stands for a non-finite operand or result
(NaN, and also Infinity from division by zero, which the embedding collapses
into the same non-finite marker since the sources never distinguish them). -/
def jsDiv (a b : Option ℚ) : Option ℚ :=
  match a, b with
  | some x, some y => if y = 0 then none else some (x / y)
  | _, _ => none

/-- JavaScript multiplication on possibly non-finite numbers. -/
def jsMul (a b : Option ℚ) : Option ℚ :=
  match a, b with
  | some x, some y => some (x * y)
  | _, _ => none

/-- Embedding of `parseFloat(x.toFixed(1))`: a finite value is rounded to one
decimal place; `NaN.toFixed(1)` is the string "NaN", which `parseFloat` turns
back into NaN, so the non-finite marker is preserved. -/
def jsRound1 (a : Option ℚ) : Option ℚ :=
  a.map fun q => ((round (q * 10) : ℤ) : ℚ) / 10

/-! ## The GET /dashboard/api/system/stats handler (src/server.js, lines 389-410)

The systeminformation results (`si.currentLoad()`, `si.mem()`, `si.fsSize()`)
are parameters; the embedding covers the case in which all of them resolved
successfully, which is the case the claim is about. -/

/-- Memory figures reported by `si.mem()`. -/
structure SiMem where
  used : ℚ
  total : ℚ
deriving Repr, DecidableEq

/-- One filesystem entry reported by `si.fsSize()`. -/
structure SiFs where
  mount : String
  size : ℚ
  used : ℚ
deriving Repr, DecidableEq

/-- Host information reported by `si.osInfo()` (only the field the stats
handlers read). -/
structure SiOsInfo where
  uptime : ℚ
deriving Repr, DecidableEq

/-- Response of the stats endpoint: either the success payload
`{cpu, memory, storage, uptime, timestamp}` or an error status with message. -/
inductive StatsResp
  | ok (cpu memory storage : Option ℚ) (uptime : ℚ) (timestamp : String)
  | error (status : Nat) (msg : String)
deriving Repr, DecidableEq

/-- In the stats handler of src/server.js the identifier `fs` resolves to the
`fs-extra` module imported at line 7, not to a filesystem entry; the module
object has no `size` property, so `fs.size` evaluates to JavaScript
`undefined`, a non-finite operand. -/
def moduleFs_size : Option ℚ := none

/-- No binding named `osInfo` is in scope at the stats handler of
src/server.js (the only `osInfo` is a local of `getEnhancedSystemInfo`);
evaluating `osInfo.uptime` therefore throws a ReferenceError. -/
def osInfo_inScope : Option SiOsInfo := none

/-- Embedding of the GET /dashboard/api/system/stats handler of
src/server.js: find the root mount (else the first entry), compute
`(rootFs.used / fs.size) * 100` — where `fs` is the fs-extra module — then
build the JSON payload, whose `uptime` field reads the out-of-scope
identifier `osInfo` and throws; the catch clause answers 500 with the
error message. -/
def systemStatsHandler (currentLoad : ℚ) (mem : SiMem) (fsSize : List SiFs)
    (now : String) : StatsResp :=
  let rootFs : Option SiFs :=
    (fsSize.find? fun f => f.mount == "/").orElse fun _ => fsSize.head?
  let storagePercent : Option ℚ :=
    match rootFs with
    | some r => jsRound1 (jsMul (jsDiv (some r.used) moduleFs_size) (some 100))
    | none => some 0
  match osInfo_inScope with
  | none => .error 500 "osInfo is not defined"
  | some o =>
      .ok (jsRound1 (some currentLoad))
        (jsRound1 (jsMul (jsDiv (some mem.used) (some mem.total)) (some 100)))
        storagePercent o.uptime now

/-- Embedding of the GET /dashboard/api/system/stats handler of the earlier
server revision (src/unnamed/part_001, lines 244-267), which divides by
`rootFs.size` and takes uptime from `si.time()`. -/
def systemStatsHandlerLegacy (currentLoad : ℚ) (mem : SiMem)
    (fsSize : List SiFs) (timeUptime : ℚ) (now : String) : StatsResp :=
  let rootFs : Option SiFs :=
    (fsSize.find? fun f => f.mount == "/").orElse fun _ => fsSize.head?
  let storagePercent : Option ℚ :=
    match rootFs with
    | some r => jsRound1 (jsMul (jsDiv (some r.used) (some r.size)) (some 100))
    | none => some 0
  .ok (jsRound1 (some currentLoad))
    (jsRound1 (jsMul (jsDiv (some mem.used) (some mem.total)) (some 100)))
    storagePercent timeUptime now

/-- The earlier revision of the handler does answer the success payload, with
storage taken from the root mount: evidence that the current handler's
behavior is a regression, not the intent. -/
theorem systemStatsHandlerLegacy_ok :
    systemStatsHandlerLegacy 42 ⟨50, 100⟩ [⟨"/", 100, 30⟩] 3600 "T0" =
      .ok (some 42) (some 50) (some 30) 3600 "T0" := by
  norm_num [systemStatsHandlerLegacy, jsRound1, jsMul, jsDiv, List.find?]

/-- C1: in the current server, for every request to GET /system/stats in
which all metric sources resolved successfully, the handler does not produce
the claimed success payload: building the response object evaluates the
out-of-scope identifier `osInfo`, so a ReferenceError is thrown and the
endpoint answers 500 with the error message, for every input. -/
theorem c1_system_stats_throws (currentLoad : ℚ) (mem : SiMem)
    (fsSize : List SiFs) (now : String) :
    systemStatsHandler currentLoad mem fsSize now =
      .error 500 "osInfo is not defined" := by
  rfl

/-! ## The WebSocket hub and the sampling loop (src/server.js, lines 52-119)

Connections are identified by natural numbers; messages are drawn from an
arbitrary type. One state records the `connectedClients` set (as an
insertion-ordered duplicate-free list), the `ws.close` calls the server
issued, the messages delivered by `broadcastToClients`, and the sampling
loop's in-flight bookkeeping. Node.js runs the event handlers one at a
time, so a trace is a list of events folded over the state; an event that
fires "within the same tick" as another is simply the next list entry. -/

/-- Name of the session cookie configured in src/server.js (line 143). -/
def sidCookieName : String := "server_dashboard.sid"

/-- Embedding of the handshake check at the top of the connection handler
(src/server.js, line 63): the request is rejected when it has no cookie
header or the header does not contain the session cookie name as a
substring. No session-store lookup takes place. -/
def wsAuthCheck (cookie : Option String) : Bool :=
  match cookie with
  | none => false
  | some c => jsIncludes c sidCookieName

/-- State of the hub and of the sampling loop. `active` is
`connectedClients`; every member is an open socket (the close and error
handlers remove a socket in the same step in which it stops being open).
`closes` records each server-issued `ws.close(code, reason)`. `delivered`
records each `client.send` as a pair of message and connection. `inFlight`
counts sampling passes started and not yet finished, `samplesStarted`
counts all sampling passes ever started. -/
structure HubState (μ : Type) where
  active : List Nat
  closes : List (Nat × Nat × String)
  delivered : List (μ × Nat)
  inFlight : Nat
  samplesStarted : Nat
deriving Repr, DecidableEq

/-- The events the server reacts to: an incoming connection carrying a
cookie header, a client-initiated close, a socket error, a firing of the
2-second interval timer, the completion of a sampling pass (which broadcasts
the collected snapshot), and a direct `broadcastToClients` call from an HTTP
handler. -/
inductive HubEv (μ : Type)
  | connect (cid : Nat) (cookie : Option String)
  | clientClose (cid : Nat)
  | clientError (cid : Nat)
  | tick
  | sampleDone (msg : μ)
  | appBroadcast (msg : μ)
deriving Repr, DecidableEq

/-- Embedding of `broadcastToClients` (src/server.js, lines 83-89): send the
message to every member of `connectedClients`; all members are open sockets
in this model, so the `readyState === OPEN` guard passes for each. -/
def broadcastToClients {μ : Type} (s : HubState μ) (msg : μ) : HubState μ :=
  { s with delivered := s.delivered ++ s.active.map fun c => (msg, c) }

/-- One step of the server's event loop. The connection handler
(lines 61-80) closes a rejected socket with code 1008 and returns without
adding it; an accepted socket joins `connectedClients`. Close and error
handlers delete the socket from the set. The interval callback
(lines 92-119) returns immediately when the set is empty and otherwise
starts a sampling pass — it has no guard against a previous pass still
being in flight. A finished pass broadcasts its snapshot. -/
def hubStep {μ : Type} (s : HubState μ) : HubEv μ → HubState μ
  | .connect cid cookie =>
      if wsAuthCheck cookie then
        { s with active := if cid ∈ s.active then s.active else s.active ++ [cid] }
      else
        { s with closes := s.closes ++ [(cid, 1008, "Authentication required")] }
  | .clientClose cid => { s with active := s.active.erase cid }
  | .clientError cid => { s with active := s.active.erase cid }
  | .tick =>
      if s.active.length = 0 then s
      else { s with inFlight := s.inFlight + 1,
                    samplesStarted := s.samplesStarted + 1 }
  | .sampleDone msg =>
      broadcastToClients { s with inFlight := s.inFlight - 1 } msg
  | .appBroadcast msg => broadcastToClients s msg

/-- The server starts with no clients, no closes, no deliveries and no
sampling pass in flight. -/
def hubInit (μ : Type) : HubState μ :=
  { active := [], closes := [], delivered := [], inFlight := 0,
    samplesStarted := 0 }

/-- Run a trace of events from the initial state. -/
def hubRun {μ : Type} (evs : List (HubEv μ)) : HubState μ :=
  evs.foldl hubStep (hubInit μ)

/-- Definition following the spec's words, for comparison with the code's
`wsAuthCheck`: a handshake "carries a valid session" when the cookie header
presents the session cookie with a value that the session store holds
(the store is given as its list of valid session identifiers). -/
def specCarriesValidSession (store : List String) (cookie : Option String) :
    Bool :=
  store.any fun sid =>
    match cookie with
    | none => false
    | some c => jsIncludes c (sidCookieName ++ "=" ++ sid)

/-! ## Step lemmas for the hub -/

/-- A connection that is outside the active set stays outside it across any
event, provided any connect event for it fails the handshake check. -/
theorem hubStep_active_not_mem {μ : Type} (cid : Nat) (s : HubState μ)
    (e : HubEv μ) (ha : cid ∉ s.active)
    (hc : ∀ cookie, e = HubEv.connect cid cookie → wsAuthCheck cookie = false) :
    cid ∉ (hubStep s e).active := by
  cases e with
  | connect c cookie =>
      by_cases hauth : wsAuthCheck cookie = true
      · have hne : c ≠ cid := by
          intro h
          subst h
          rw [hc cookie rfl] at hauth
          exact Bool.noConfusion hauth
        simp only [hubStep, hauth, if_true]
        by_cases hmem : c ∈ s.active
        · simpa [hmem] using ha
        · simp only [hmem, if_false, List.mem_append, List.mem_singleton]
          rintro (h | h)
          · exact ha h
          · exact hne h.symm
      · simp only [hubStep, hauth, if_false]
        exact ha
  | clientClose c =>
      intro h
      exact ha (List.mem_of_mem_erase h)
  | clientError c =>
      intro h
      exact ha (List.mem_of_mem_erase h)
  | tick =>
      simp only [hubStep]
      split <;> exact ha
  | sampleDone m => exact ha
  | appBroadcast m => exact ha

/-- No event delivers a message to a connection that is outside the active
set and has received nothing so far. -/
theorem hubStep_delivered_not_mem {μ : Type} (cid : Nat) (s : HubState μ)
    (e : HubEv μ) (ha : cid ∉ s.active)
    (hd : ∀ m, (m, cid) ∉ s.delivered) :
    ∀ m, (m, cid) ∉ (hubStep s e).delivered := by
  have hbro : ∀ (s2 : HubState μ), s2.active = s.active →
      s2.delivered = s.delivered →
      ∀ msg m, (m, cid) ∉ (broadcastToClients s2 msg).delivered := by
    intro s2 hact hdel msg m hmem
    rcases List.mem_append.mp hmem with h | h
    · exact hd m (hdel ▸ h)
    · rcases List.mem_map.mp h with ⟨c, hcmem, heq⟩
      have : c = cid := congrArg Prod.snd heq
      subst this
      exact ha (hact ▸ hcmem)
  cases e with
  | connect c cookie =>
      intro m
      simp only [hubStep]
      split <;> exact hd m
  | clientClose c => exact hd
  | clientError c => exact hd
  | tick =>
      intro m
      simp only [hubStep]
      split <;> exact hd m
  | sampleDone msg => exact hbro _ rfl rfl msg
  | appBroadcast msg => exact hbro _ rfl rfl msg

/-- Close records only accumulate: a recorded `ws.close` survives every
later event. -/
theorem hubStep_closes_mono {μ : Type} (s : HubState μ) (e : HubEv μ)
    (x : Nat × Nat × String) (hx : x ∈ s.closes) : x ∈ (hubStep s e).closes := by
  cases e with
  | connect c cookie =>
      simp only [hubStep]
      split
      · exact hx
      · exact List.mem_append_left _ hx
  | clientClose c => exact hx
  | clientError c => exact hx
  | tick =>
      simp only [hubStep]
      split <;> exact hx
  | sampleDone msg => exact hx
  | appBroadcast msg => exact hx

/-- Invariant run over a whole trace: a connection whose connect events all
fail the handshake check is never in the active set, never receives a
delivery, keeps previously recorded closes, and gets a 1008 close recorded
for each of its connect events. -/
theorem hub_reject_invariant {μ : Type} (cid : Nat) :
    ∀ (evs : List (HubEv μ)) (s : HubState μ),
      (∀ cookie, HubEv.connect cid cookie ∈ evs → wsAuthCheck cookie = false) →
      cid ∉ s.active →
      (∀ m, (m, cid) ∉ s.delivered) →
      cid ∉ (evs.foldl hubStep s).active ∧
      (∀ m, (m, cid) ∉ (evs.foldl hubStep s).delivered) ∧
      (∀ x, x ∈ s.closes → x ∈ (evs.foldl hubStep s).closes) ∧
      (∀ cookie, HubEv.connect cid cookie ∈ evs →
        (cid, 1008, "Authentication required") ∈ (evs.foldl hubStep s).closes) := by
  intro evs
  induction evs with
  | nil =>
      intro s _ ha hd
      refine ⟨ha, hd, fun x hx => hx, ?_⟩
      intro cookie hmem
      simp at hmem
  | cons e rest ih =>
      intro s hconn ha hd
      have hconnRest : ∀ cookie, HubEv.connect cid cookie ∈ rest →
          wsAuthCheck cookie = false := fun cookie hmem =>
        hconn cookie (List.mem_cons_of_mem _ hmem)
      have hcHead : ∀ cookie, e = HubEv.connect cid cookie →
          wsAuthCheck cookie = false := by
        intro cookie heq
        exact hconn cookie (heq ▸ List.mem_cons_self _ _)
      have ha2 : cid ∉ (hubStep s e).active :=
        hubStep_active_not_mem cid s e ha hcHead
      have hd2 : ∀ m, (m, cid) ∉ (hubStep s e).delivered :=
        hubStep_delivered_not_mem cid s e ha hd
      have hrec := ih (hubStep s e) hconnRest ha2 hd2
      refine ⟨hrec.1, hrec.2.1, ?_, ?_⟩
      · intro x hx
        exact hrec.2.2.1 x (hubStep_closes_mono s e x hx)
      · intro cookie hmem
        rcases List.mem_cons.mp hmem with heq | hmem2
        · have hfail := hcHead cookie heq.symm
          have hx : (cid, 1008, "Authentication required") ∈ (hubStep s e).closes := by
            rw [← heq]
            simp only [hubStep, hfail, Bool.false_eq_true, if_false]
            exact List.mem_append_right _ (List.mem_singleton.mpr rfl)
          exact hrec.2.2.1 _ hx
        · exact hrec.2.2.2 cookie hmem2

/-- Trace exhibiting the counterexample for C2: the session store holds only
the identifier "realSessionId"; a connection arrives whose cookie header is
"server_dashboard.sid=forged" — it names the session cookie but carries no
valid session — and a broadcast fires as the very next event. -/
def c2Trace : List (HubEv Nat) :=
  [.connect 0 (some "server_dashboard.sid=forged"), .appBroadcast 7]

/-- C2 (counterexample): the connection of `c2Trace` does not carry a valid
session, yet the server closes nothing and the broadcast is delivered to it —
the handshake check in src/server.js only looks for the cookie name as a
substring and never validates the session, so the claim as stated is false. -/
theorem c2_counterexample :
    specCarriesValidSession ["realSessionId"]
        (some "server_dashboard.sid=forged") = false ∧
    (hubRun c2Trace).delivered = [(7, 0)] ∧
    (hubRun c2Trace).closes = [] :=
  ⟨rfl, rfl, rfl⟩

/-- C2 (amended): for every incoming push-channel connection whose handshake
request fails the code's authentication check — no cookie header, or a header
not containing the session cookie name — the connection gets a 1008
(policy violation) close before ever being added to the active set, and it
never receives any broadcast message, even one fired in the same tick as the
rejected handshake (the immediately following event of the trace). -/
theorem c2_rejected_connection_isolated {μ : Type} (evs : List (HubEv μ))
    (cid : Nat)
    (hconn : ∀ cookie, HubEv.connect cid cookie ∈ evs →
      wsAuthCheck cookie = false) :
    cid ∉ (hubRun evs).active ∧
    (∀ m, (m, cid) ∉ (hubRun evs).delivered) ∧
    (∀ cookie, HubEv.connect cid cookie ∈ evs →
      (cid, 1008, "Authentication required") ∈ (hubRun evs).closes) := by
  have h := hub_reject_invariant cid evs (hubInit μ) hconn
    (by simp [hubInit]) (by simp [hubInit])
  exact ⟨h.1, h.2.1, h.2.2.2⟩

/-- C2 (witness): a cookieless connection followed by a broadcast in the same
tick: the connection is closed with 1008, never active, never receives the
broadcast. -/
theorem c2_rejected_connection_isolated_witness :
    3 ∉ (hubRun [HubEv.connect 3 (none : Option String),
        HubEv.appBroadcast (1 : Nat)]).active ∧
    (∀ m, (m, 3) ∉ (hubRun [HubEv.connect 3 (none : Option String),
        HubEv.appBroadcast (1 : Nat)]).delivered) ∧
    (∀ cookie, HubEv.connect 3 cookie ∈ [HubEv.connect 3 (none : Option String),
        HubEv.appBroadcast (1 : Nat)] →
      (3, 1008, "Authentication required") ∈
        (hubRun [HubEv.connect 3 (none : Option String),
          HubEv.appBroadcast (1 : Nat)]).closes) := by
  refine c2_rejected_connection_isolated _ 3 ?_
  intro cookie h
  simp only [List.mem_cons, List.not_mem_nil, or_false] at h
  rcases h with h | h
  · cases h
    rfl
  · cases h

/-- Trace exhibiting the counterexample for C3: one authenticated client
connects, then the 2-second timer fires twice before the first sampling pass
completes. -/
def c3Trace : List (HubEv Nat) :=
  [.connect 0 (some "server_dashboard.sid=abc"), .tick, .tick]

/-- C3 (counterexample): after `c3Trace` two sampling passes are in flight at
once — the interval callback in src/server.js has no in-flight guard, so the
second tick is neither skipped nor serialized, refuting the claim that at no
reachable state are two samples being collected concurrently. -/
theorem c3_counterexample : (hubRun c3Trace).inFlight = 2 := rfl

/-- C3 (amended): the periodic sampling loop does not serialize ticks: from
any state with a nonempty client set, a timer tick unconditionally starts
another sampling pass — incrementing both the in-flight count and the count
of passes started — even when a previous pass is still in flight, so
overlapping sampling passes are reachable; a tick is only skipped when the
client set is empty. -/
theorem c3_tick_always_starts_sample {μ : Type} (s : HubState μ)
    (h : s.active ≠ []) :
    (hubStep s HubEv.tick).inFlight = s.inFlight + 1 ∧
    (hubStep s HubEv.tick).samplesStarted = s.samplesStarted + 1 := by
  have hlen : ¬ s.active.length = 0 := by
    simpa [List.length_eq_zero] using h
  simp [hubStep, hlen]

/-- C3 (witness): with one client connected and one pass already in flight,
the tick starts a second pass. -/
theorem c3_tick_always_starts_sample_witness :
    (hubStep (⟨[5], [], [], 1, 1⟩ : HubState Nat) HubEv.tick).inFlight = 1 + 1 ∧
    (hubStep (⟨[5], [], [], 1, 1⟩ : HubState Nat) HubEv.tick).samplesStarted
      = 1 + 1 :=
  c3_tick_always_starts_sample _ (by decide)

/-- C5: whenever the broadcast tick fires while the active connection set is
empty, the interval callback returns at its first line and the state is left
entirely unchanged: no sampling pass is started (so no metric source is
queried) and nothing is delivered on any connection. -/
theorem c5_empty_tick_noop {μ : Type} (s : HubState μ) (h : s.active = []) :
    hubStep s HubEv.tick = s := by
  simp [hubStep, h]

/-- C5 (witness): the tick on the empty initial state is a no-op. -/
theorem c5_empty_tick_noop_witness :
    hubStep (hubInit Nat) HubEv.tick = hubInit Nat :=
  c5_empty_tick_noop _ rfl

/-! ## The POST /dashboard/api/docker/containers/:id/:action handler
(src/server.js, lines 477-504)

`docker.getContainer(id)` only builds a local handle, so the backend is
first contacted when `container[action]()` is awaited. The backend's
responses are parameters: `actionOutcome` is the settled result of
`container[action]()` and `inspectOutcome` the settled result of
`container.inspect()`. The handler returns its HTTP response, the list of
lifecycle actions it attempted against the backend, and the hub state after
any broadcast it performed. The handler never reads the workload's current
lifecycle state; the `containerState` parameter records that state only so
that independence from it can be stated. -/

/-- Response shape of the container action endpoint. -/
inductive ApiResp
  | success (message : String)
  | failure (status : Nat) (error : String)
deriving Repr, DecidableEq

/-- Fields of `container.inspect()` the handler reads. -/
structure DockerContainerInfo where
  Name : String
  Id : String
deriving Repr, DecidableEq

/-- The lifecycle-event envelope broadcast on success (type
"container-event" with action, name and id). -/
structure ContainerEventMsg where
  action : String
  name : String
  id : String
deriving Repr, DecidableEq

/-- The whitelist of lifecycle actions (src/server.js, line 482). -/
def validActions : List String := ["start", "stop", "restart"]

/-- Embedding of `containerInfo.Name.replace('/', '')`: JavaScript
`String.replace` with a string pattern replaces only the first occurrence. -/
def removeFirstSlash : List Char → List Char
  | [] => []
  | c :: rest => if c = '/' then rest else c :: removeFirstSlash rest

/-- The container name with its first slash stripped. -/
def jsStripFirstSlash (s : String) : String :=
  ⟨removeFirstSlash s.toList⟩

/-- Embedding of the container action handler: reject actions outside the
whitelist with 400 before any backend contact; otherwise await the action —
a backend error becomes a 500 —, then await `container.inspect()` to gather
the event payload — an error there is caught by the same catch clause and
also becomes a 500 —, broadcast the container-event and answer success. -/
def containerActionHandler (action : String)
    (actionOutcome : Except String Unit)
    (inspectOutcome : Except String DockerContainerInfo)
    (_containerState : String) (hub : HubState ContainerEventMsg) :
    ApiResp × List String × HubState ContainerEventMsg :=
  if action ∈ validActions then
    match actionOutcome with
    | .error e => (.failure 500 e, [action], hub)
    | .ok _ =>
        match inspectOutcome with
        | .error e => (.failure 500 e, [action], hub)
        | .ok info =>
            (.success ("Container " ++ action ++ "ed successfully"), [action],
             broadcastToClients hub
               ⟨action, jsStripFirstSlash info.Name, info.Id⟩)
  else (.failure 400 "Invalid action", [], hub)

/-- C6: an action parameter outside {start, stop, restart} is answered with
a 400 client error and no lifecycle action is ever attempted against the
backend; an action parameter inside the set is forwarded to the backend
regardless of the workload's current state (the handler never consults it)
and regardless of how the backend then settles. -/
theorem c6_action_validation (action : String)
    (actionOutcome : Except String Unit)
    (inspectOutcome : Except String DockerContainerInfo)
    (containerState : String) (hub : HubState ContainerEventMsg) :
    (action ∉ validActions →
      (containerActionHandler action actionOutcome inspectOutcome
          containerState hub).1 = .failure 400 "Invalid action" ∧
      (containerActionHandler action actionOutcome inspectOutcome
          containerState hub).2.1 = []) ∧
    (action ∈ validActions →
      (containerActionHandler action actionOutcome inspectOutcome
          containerState hub).2.1 = [action]) := by
  by_cases hmem : action ∈ validActions
  · refine ⟨fun h => absurd hmem h, fun _ => ?_⟩
    simp only [containerActionHandler, if_pos hmem]
    cases actionOutcome with
    | error e => rfl
    | ok u => cases inspectOutcome with
      | error e => rfl
      | ok info => rfl
  · refine ⟨fun _ => ?_, fun h => absurd h hmem⟩
    simp only [containerActionHandler, if_neg hmem]
    constructor <;> trivial

/-- C6 (witness): the out-of-set action "kill" is rejected with 400 and
nothing is attempted; "stop" against a workload that is already stopped is
still forwarded. -/
theorem c6_action_validation_witness :
    ((containerActionHandler "kill" (.ok ()) (.ok ⟨"/web", "abc"⟩) "running"
        (hubInit ContainerEventMsg)).1 = .failure 400 "Invalid action" ∧
      (containerActionHandler "kill" (.ok ()) (.ok ⟨"/web", "abc"⟩) "running"
        (hubInit ContainerEventMsg)).2.1 = []) ∧
    (containerActionHandler "stop" (.ok ()) (.ok ⟨"/web", "abc"⟩) "stopped"
        (hubInit ContainerEventMsg)).2.1 = ["stop"] :=
  ⟨(c6_action_validation "kill" (.ok ()) (.ok ⟨"/web", "abc"⟩) "running"
      (hubInit ContainerEventMsg)).1 (by decide),
   (c6_action_validation "stop" (.ok ()) (.ok ⟨"/web", "abc"⟩) "stopped"
      (hubInit ContainerEventMsg)).2 (by decide)⟩

/-- C7 (counterexample): the backend action itself succeeds, but gathering
the event's payload fails (`container.inspect()` rejects); the shared catch
clause turns this into a 500 error response, so the action's reported result
is no longer a success — refuting the claim that a failure in producing the
lifecycle event leaves the reported result a success. -/
theorem c7_counterexample :
    (containerActionHandler "restart" (.ok ()) (.error "socket hang up")
        "running" (hubInit ContainerEventMsg)).1
      = .failure 500 "socket hang up" := rfl

/-- C7 (amended): a successful workload action emits the container-event
through the Broadcast Hub and reports success only when gathering the
event's payload also succeeds; if `container.inspect()` fails after the
successful action, the handler reports a 500 error even though the action
itself succeeded. (Fan-out to the hub's clients itself cannot fail in this
embedding, so a delivery failure cannot be distinguished here.) -/
theorem c7_lifecycle_event_on_success (action : String)
    (hact : action ∈ validActions) (info : DockerContainerInfo)
    (containerState : String) (hub : HubState ContainerEventMsg) :
    (containerActionHandler action (.ok ()) (.ok info)
        containerState hub).1
      = .success ("Container " ++ action ++ "ed successfully") ∧
    (containerActionHandler action (.ok ()) (.ok info)
        containerState hub).2.2.delivered
      = hub.delivered ++ hub.active.map
          (fun c => (⟨action, jsStripFirstSlash info.Name, info.Id⟩, c)) ∧
    (∀ e, (containerActionHandler action (.ok ()) (.error e)
        containerState hub).1 = .failure 500 e) := by
  simp only [containerActionHandler, if_pos hact]
  refine ⟨?_, ?_, fun e => ?_⟩ <;> trivial

/-- C7 (witness): a successful "stop" with a successful inspect reports
success and delivers the container-event to the one connected client; the
same "stop" with a failing inspect reports a 500. -/
theorem c7_lifecycle_event_on_success_witness :
    (containerActionHandler "stop" (.ok ()) (.ok ⟨"/db", "id1"⟩) "running"
        ⟨[4], [], [], 0, 0⟩).1 = .success "Container stoped successfully" ∧
    (containerActionHandler "stop" (.ok ()) (.ok ⟨"/db", "id1"⟩) "running"
        ⟨[4], [], [], 0, 0⟩).2.2.delivered
      = [] ++ [4].map (fun c => ((⟨"stop", "db", "id1"⟩ : ContainerEventMsg), c)) ∧
    (∀ e, (containerActionHandler "stop" (.ok ()) (.error e) "running"
        (⟨[4], [], [], 0, 0⟩ : HubState ContainerEventMsg)).1
      = .failure 500 e) :=
  c7_lifecycle_event_on_success "stop" (by decide) ⟨"/db", "id1"⟩ "running"
    ⟨[4], [], [], 0, 0⟩

/-! ## The client reconciler (src/public/script.js, lines 70-115 and 1076-1096)

The browser client's state records the configuration toggles, whether the
polling interval timer is set, whether a reconnect timeout from the onclose
handler is pending (with its delay), how many times a WebSocket was
constructed, and the displayed real-time status. Each handler of
`setupWebSocket` and the polling helpers is one function on this state. -/

/-- State of the browser client's reconciler. -/
structure ClientState where
  realTimeEnabled : Bool
  autoRefresh : Bool
  polling : Bool
  pendingReconnectMs : Option Nat
  wsAttempts : Nat
  realtimeStatus : String
deriving Repr, DecidableEq

/-- The fixed backoff the onclose handler passes to `setTimeout`
(src/public/script.js, line 104). -/
def RECONNECT_DELAY_MS : Nat := 5000

/-- Embedding of `setupWebSocket` (lines 70-77): a no-op when the real-time
feature is disabled, otherwise it constructs a new WebSocket and registers
the handlers below. -/
def setupWebSocket (s : ClientState) : ClientState :=
  if s.realTimeEnabled then { s with wsAttempts := s.wsAttempts + 1 } else s

/-- Embedding of the onopen handler (lines 79-83): a toast and a status
update only — the polling interval is left untouched. -/
def wsOnOpen (s : ClientState) : ClientState :=
  { s with realtimeStatus := "Connected" }

/-- Embedding of the onclose handler (lines 94-105): a status update and a
`setTimeout` of 5000 ms for the reconnection attempt — the polling interval
is left untouched. -/
def wsOnClose (s : ClientState) : ClientState :=
  { s with realtimeStatus := "Disconnected",
           pendingReconnectMs := some RECONNECT_DELAY_MS }

/-- Firing of the reconnect timeout scheduled by the onclose handler: it
re-runs `setupWebSocket` exactly when the real-time feature is still
enabled. -/
def reconnectTimerFire (s : ClientState) : ClientState :=
  let s2 := { s with pendingReconnectMs := none }
  if s2.realTimeEnabled then setupWebSocket s2 else s2

/-- Embedding of `startPolling` (lines 1076-1084): respects the auto-refresh
toggle, then (re)arms the polling interval. -/
def startPolling (s : ClientState) : ClientState :=
  if s.autoRefresh then { s with polling := true } else s

/-- Embedding of `stopPolling` (lines 1086-1091): clears the polling
interval. -/
def stopPolling (s : ClientState) : ClientState :=
  { s with polling := false }

/-- C8 (counterexample): with the real-time feature enabled and polling
running, the confirmed opening of the push channel leaves polling running —
the onopen handler of the current client never suspends it, refuting the
claim that active polling is suspended once the push channel is open. -/
theorem c8_counterexample :
    (wsOnOpen ⟨true, true, true, none, 1, "Connecting"⟩).polling = true := rfl

/-- C8 (amended): in the current client the push channel's confirmed opening
does not change the polling interval, and neither does its closing — polling
runs whenever auto-refresh arms it, independent of the channel (the client
avoids double-application elsewhere, by not applying polled snapshots to the
charts while the socket is open); the onclose handler always schedules a
reconnection attempt after the fixed 5000 ms backoff, and when that timer
fires a new connection is attempted exactly when the real-time feature is
still enabled by configuration, so attempts repeat for as long as it is. -/
theorem c8_reconciler_behavior (s : ClientState) :
    (wsOnOpen s).polling = s.polling ∧
    (wsOnClose s).polling = s.polling ∧
    (wsOnClose s).pendingReconnectMs = some RECONNECT_DELAY_MS ∧
    (s.realTimeEnabled = true →
      (reconnectTimerFire s).wsAttempts = s.wsAttempts + 1) ∧
    (s.realTimeEnabled = false →
      (reconnectTimerFire s).wsAttempts = s.wsAttempts) := by
  refine ⟨rfl, rfl, rfl, ?_, ?_⟩ <;> intro h <;>
    simp [reconnectTimerFire, setupWebSocket, h]

/-- C8 (witness): at a concrete enabled state with polling running, opening
leaves polling on, closing schedules the 5000 ms reconnect, and the firing
timer attempts a new connection. -/
theorem c8_reconciler_behavior_witness :
    (wsOnOpen ⟨true, true, true, none, 0, ""⟩).polling = true ∧
    (wsOnClose ⟨true, true, true, none, 0, ""⟩).pendingReconnectMs
      = some RECONNECT_DELAY_MS ∧
    (reconnectTimerFire ⟨true, true, true, none, 0, ""⟩).wsAttempts = 0 + 1 :=
  ⟨(c8_reconciler_behavior ⟨true, true, true, none, 0, ""⟩).1,
   (c8_reconciler_behavior ⟨true, true, true, none, 0, ""⟩).2.2.1,
   (c8_reconciler_behavior ⟨true, true, true, none, 0, ""⟩).2.2.2.1 rfl⟩

/-! ## The batch container action (src/public/script.js, lines 686-709;
identical in src/unnamed/part_000, lines 504-527)

The fetch of each selected target is a parameter mapping the target's id to
how its request settled: fulfilled with an HTTP success status, fulfilled
with an HTTP error status (`fetch` does not reject on those), or rejected at
the transport level. All fetches are created by the `.map` before
`Promise.all` is awaited, so every selected target's request is issued no
matter how the others settle. The user-visible result is a single toast. -/

/-- One entry of the client's cached container listing. -/
structure ContainerC where
  id : String
  state : String
deriving Repr, DecidableEq

/-- How one target's fetch settled. -/
inductive FetchOutcome
  | fulfilledOk
  | fulfilledHttpError
  | rejected
deriving Repr, DecidableEq

/-- The single toast reported for the whole batch. -/
inductive BatchToast
  | warning (msg : String)
  | success (msg : String)
  | failure (msg : String)
deriving Repr, DecidableEq

/-- Embedding of the target selection (lines 687-689): for a stop, the
containers whose cached state is running; otherwise those whose state is not
running. -/
def batchSelect (action : String) (containers : List ContainerC) :
    List ContainerC :=
  containers.filter fun c =>
    if action = "stop" then c.state == "running" else !(c.state == "running")

/-- Embedding of `batchContainerAction`: warn and contact nothing when the
selection is empty; otherwise issue one fetch per selected target, await
`Promise.all`, and report one aggregate toast — a failure toast if any fetch
rejected, else a success toast with the count of selected targets. Returns
the toast and the ids whose requests were issued. -/
def batchContainerAction (action : String) (containers : List ContainerC)
    (outcome : String → FetchOutcome) : BatchToast × List String :=
  let selected := batchSelect action containers
  if selected.isEmpty then
    (.warning ("No containers to " ++ action), [])
  else
    let requests := selected.map fun c => c.id
    if requests.any fun i => decide (outcome i = .rejected) then
      (.failure ("Failed to " ++ action ++ " containers"), requests)
    else
      (.success ((if action = "stop" then "Stopped " else "Started ")
        ++ toString requests.length ++ " containers"), requests)

/-- The workload set of the spec's batch scenario: A running, B stopped,
C running. -/
def c4Containers : List ContainerC :=
  [⟨"A", "running"⟩, ⟨"B", "stopped"⟩, ⟨"C", "running"⟩]

/-- Outcomes in which A's stop fails with an HTTP error while C's
succeeds. -/
def c4OutcomeMixed : String → FetchOutcome :=
  fun i => if i = "A" then .fulfilledHttpError else .fulfilledOk

/-- Outcomes in which every request succeeds. -/
def c4OutcomeAllOk : String → FetchOutcome := fun _ => .fulfilledOk

/-- C4 (counterexample): on {A: running, B: stopped, C: running} with A
failing (HTTP error) and C succeeding, the batch stop reports exactly the
same single all-success toast as the run in which both succeed — the
reported result does not distinguish the per-target successes from the
failures, refuting the claim that it reports one success and one failure. -/
theorem c4_counterexample :
    batchContainerAction "stop" c4Containers c4OutcomeMixed
      = batchContainerAction "stop" c4Containers c4OutcomeAllOk ∧
    (batchContainerAction "stop" c4Containers c4OutcomeMixed).1
      = .success "Stopped 2 containers" ∧
    c4OutcomeMixed "A" ≠ c4OutcomeAllOk "A" :=
  ⟨rfl, rfl, by decide⟩

/-- C4 (amended): each selected target's request is issued independently —
the issued set is exactly the selection, no matter how any request settles,
so one target's failure neither cancels nor rolls back the others — but the
reported result is a single aggregate toast: a failure message if any fetch
rejected at the transport level, otherwise a success message carrying only
the count of selected targets; per-target outcomes, and HTTP-level failures
altogether, are not reported. -/
theorem c4_batch_behavior (action : String) (containers : List ContainerC)
    (outcome : String → FetchOutcome)
    (hne : (batchSelect action containers).isEmpty = false) :
    (batchContainerAction action containers outcome).2
      = (batchSelect action containers).map (fun c => c.id) ∧
    ((∃ i ∈ (batchSelect action containers).map (fun c => c.id),
        outcome i = .rejected) →
      (batchContainerAction action containers outcome).1
        = .failure ("Failed to " ++ action ++ " containers")) ∧
    ((∀ i ∈ (batchSelect action containers).map (fun c => c.id),
        outcome i ≠ .rejected) →
      (batchContainerAction action containers outcome).1
        = .success ((if action = "stop" then "Stopped " else "Started ")
            ++ toString (batchSelect action containers).length
            ++ " containers")) := by
  simp only [batchContainerAction, hne, Bool.false_eq_true, if_false]
  by_cases hrej : (batchSelect action containers).map (fun c => c.id)
      |>.any fun i => decide (outcome i = .rejected)
  · refine ⟨by simp [hrej], fun _ => by simp [hrej], fun hall => ?_⟩
    exfalso
    rcases List.any_eq_true.mp hrej with ⟨i, hi, hdec⟩
    exact hall i hi (of_decide_eq_true hdec)
  · refine ⟨by simp [hrej], fun hex => ?_, fun _ => by simp [hrej, List.length_map]⟩
    exfalso
    rcases hex with ⟨i, hi, hout⟩
    exact hrej (List.any_eq_true.mpr ⟨i, hi, decide_eq_true hout⟩)

/-- C4 (witness): in the mixed scenario both selected requests (A and C) are
issued, and the reported toast is the aggregate success with the count 2. -/
theorem c4_batch_behavior_witness :
    (batchContainerAction "stop" c4Containers c4OutcomeMixed).2 = ["A", "C"] ∧
    (batchContainerAction "stop" c4Containers c4OutcomeMixed).1
      = .success "Stopped 2 containers" := by
  have h := c4_batch_behavior "stop" c4Containers c4OutcomeMixed (by decide)
  exact ⟨h.1.trans (by decide), (h.2.2 (by decide)).trans (by decide)⟩

/-! ## The login rate limiter (src/server.js, lines 164-173)

The repository only configures the limiter; the counting algorithm lives in
the express-rate-limit dependency, outside these sources. The counter is
therefore modelled from the spec (its sections 3 and 4.5), while the
configuration — the window length and the attempt limit — is embedded from
`createRateLimit` and `loginLimiter` in src/server.js. -/

/-- Configuration produced by `createRateLimit(windowMs, max, message)`
(src/server.js, lines 164-170). -/
structure RateLimitConfig where
  windowMs : Nat
  max : Nat
  message : String
deriving Repr, DecidableEq

/-- Embedding of the `createRateLimit` factory. -/
def createRateLimit (windowMs max : Nat) (message : String) :
    RateLimitConfig :=
  ⟨windowMs, max, message⟩

/-- The login limiter configured at src/server.js line 172: a 15-minute
window and at most 5 attempts. -/
def loginLimiter : RateLimitConfig :=
  createRateLimit (15 * 60 * 1000) 5 "Too many login attempts"

/-- Per-identity window state: when the current window started and how many
attempts it has counted. -/
structure RateWindow where
  start : Nat
  count : Nat
deriving Repr, DecidableEq

/-- Modelled from the spec: the fixed-window counter of the
express-rate-limit dependency, which is not part of this repository's
sources. Spec section 3: "Reset when current time exceeds window start +
duration; otherwise incremented and compared against limit"; section 4.5: a
counter resets entirely once its window elapses. An identity with no window
yet opens one at its first attempt. Returns whether the attempt is allowed
together with the updated window. -/
def rateCheck (cfg : RateLimitConfig) (w : Option RateWindow) (t : Nat) :
    Bool × RateWindow :=
  match w with
  | none => (decide (1 ≤ cfg.max), ⟨t, 1⟩)
  | some w =>
      if w.start + cfg.windowMs < t then (decide (1 ≤ cfg.max), ⟨t, 1⟩)
      else (decide (w.count + 1 ≤ cfg.max), ⟨w.start, w.count + 1⟩)

/-- C9: with the login limiter's configuration (limit 5, 15-minute window),
the first five attempts of one identity inside a window are allowed, the
sixth attempt inside the same window is denied, and once the window has
elapsed the counter fully resets, so the identity's next attempt is allowed
again. -/
theorem c9_login_rate_limit (t1 t2 t3 t4 t5 t6 t7 : Nat)
    (h2 : t2 ≤ t1 + loginLimiter.windowMs)
    (h3 : t3 ≤ t1 + loginLimiter.windowMs)
    (h4 : t4 ≤ t1 + loginLimiter.windowMs)
    (h5 : t5 ≤ t1 + loginLimiter.windowMs)
    (h6 : t6 ≤ t1 + loginLimiter.windowMs)
    (h7 : t1 + loginLimiter.windowMs < t7) :
    rateCheck loginLimiter none t1 = (true, ⟨t1, 1⟩) ∧
    rateCheck loginLimiter (some ⟨t1, 1⟩) t2 = (true, ⟨t1, 2⟩) ∧
    rateCheck loginLimiter (some ⟨t1, 2⟩) t3 = (true, ⟨t1, 3⟩) ∧
    rateCheck loginLimiter (some ⟨t1, 3⟩) t4 = (true, ⟨t1, 4⟩) ∧
    rateCheck loginLimiter (some ⟨t1, 4⟩) t5 = (true, ⟨t1, 5⟩) ∧
    rateCheck loginLimiter (some ⟨t1, 5⟩) t6 = (false, ⟨t1, 6⟩) ∧
    rateCheck loginLimiter (some ⟨t1, 6⟩) t7 = (true, ⟨t7, 1⟩) := by
  refine ⟨rfl, ?_, ?_, ?_, ?_, ?_, ?_⟩
  · simp only [rateCheck]
    rw [if_neg (by exact Nat.not_lt.mpr h2)]
    rfl
  · simp only [rateCheck]
    rw [if_neg (by exact Nat.not_lt.mpr h3)]
    rfl
  · simp only [rateCheck]
    rw [if_neg (by exact Nat.not_lt.mpr h4)]
    rfl
  · simp only [rateCheck]
    rw [if_neg (by exact Nat.not_lt.mpr h5)]
    rfl
  · simp only [rateCheck]
    rw [if_neg (by exact Nat.not_lt.mpr h6)]
    rfl
  · simp only [rateCheck]
    rw [if_pos h7]
    rfl

/-- C9 (witness): six attempts at milliseconds 0 through 5 and a seventh
after the 900000 ms window: the sixth is denied, the seventh allowed. -/
theorem c9_login_rate_limit_witness :
    rateCheck loginLimiter none 0 = (true, ⟨0, 1⟩) ∧
    rateCheck loginLimiter (some ⟨0, 1⟩) 1 = (true, ⟨0, 2⟩) ∧
    rateCheck loginLimiter (some ⟨0, 2⟩) 2 = (true, ⟨0, 3⟩) ∧
    rateCheck loginLimiter (some ⟨0, 3⟩) 3 = (true, ⟨0, 4⟩) ∧
    rateCheck loginLimiter (some ⟨0, 4⟩) 4 = (true, ⟨0, 5⟩) ∧
    rateCheck loginLimiter (some ⟨0, 5⟩) 5 = (false, ⟨0, 6⟩) ∧
    rateCheck loginLimiter (some ⟨0, 6⟩) 900001 = (true, ⟨900001, 1⟩) :=
  c9_login_rate_limit 0 1 2 3 4 5 900001 (by decide) (by decide) (by decide)
    (by decide) (by decide) (by decide)

/-! ## The login handler (src/server.js, lines 327-353)

The in-memory user table and the bcrypt comparison are parameters. The
request body's fields are optional strings; JavaScript treats an absent
field and the empty string as falsy. -/

/-- One entry of the server's user table. -/
structure UserRec where
  passwordHash : String
  role : String
deriving Repr, DecidableEq

/-- The object the handler stores in `req.session.user` on success. -/
structure SessionUser where
  username : String
  role : String
  loginTime : String
  ip : String
deriving Repr, DecidableEq

/-- The request's session state: the attached user, if any. -/
structure SessionState where
  user : Option SessionUser
deriving Repr, DecidableEq

/-- Response of the login endpoint. -/
inductive LoginResp
  | success
  | failure (status : Nat) (error : String)
deriving Repr, DecidableEq

/-- JavaScript truthiness of an optional string field of the request body:
an absent field (undefined) and the empty string are falsy. -/
def jsTruthyStr : Option String → Bool
  | none => false
  | some v => !(v == "")

/-- Embedding of the POST /dashboard/api/login handler: reject with 400 when
username or password is falsy (the source's `!username || !password` guard,
written here in its de-Morgan form), answer 401 when the username is unknown
or the bcrypt comparison fails, and only on success attach the user to the
session. -/
def loginHandler (users : String → Option UserRec)
    (bcryptCompare : String → String → Bool)
    (username password : Option String) (now ip : String)
    (sess : SessionState) : LoginResp × SessionState :=
  if jsTruthyStr username && jsTruthyStr password then
    match users (username.getD "") with
    | none => (.failure 401 "Invalid credentials", sess)
    | some u =>
        if bcryptCompare (password.getD "") u.passwordHash then
          (.success, ⟨some ⟨username.getD "", u.role, now, ip⟩⟩)
        else (.failure 401 "Invalid credentials", sess)
  else (.failure 400 "Username and password required", sess)

/-- C10: whenever a login request does not succeed — missing username or
password, unknown username, or failed password comparison — the request's
session state is exactly what it was before: no user is attached, so a
failed login never produces even partial authentication. -/
theorem c10_failed_login_leaves_session (users : String → Option UserRec)
    (bcryptCompare : String → String → Bool)
    (username password : Option String) (now ip : String)
    (sess : SessionState)
    (h : (loginHandler users bcryptCompare username password now ip sess).1
      ≠ .success) :
    (loginHandler users bcryptCompare username password now ip sess).2
      = sess := by
  by_cases h1 : (jsTruthyStr username && jsTruthyStr password) = true
  · simp only [loginHandler, h1, if_true] at h ⊢
    cases husers : users (username.getD "") with
    | none => simp [husers]
    | some u =>
        by_cases hc : bcryptCompare (password.getD "") u.passwordHash = true
        · exfalso
          apply h
          simp [husers, hc]
        · simp [husers, hc]
  · simp [loginHandler, h1]

/-- The user table of the witness scenario: only the admin account exists. -/
def c10Users : String → Option UserRec :=
  fun u => if u = "admin" then some ⟨"hashA", "admin"⟩ else none

/-- The bcrypt oracle of the witness scenario: only the right password
matches the stored hash. -/
def c10Compare : String → String → Bool :=
  fun p h => p == "letmein" && h == "hashA"

/-- C10 (witness): a wrong password for the admin account answers 401 and
leaves the empty session empty. -/
theorem c10_failed_login_leaves_session_witness :
    (loginHandler c10Users c10Compare (some "admin") (some "wrong") "T" "ip"
        ⟨none⟩).2 = ⟨none⟩ :=
  c10_failed_login_leaves_session c10Users c10Compare (some "admin")
    (some "wrong") "T" "ip" ⟨none⟩ (by decide)
